import Mathlib

set_option linter.unusedVariables false

/-!
Shallow embedding of `src/backend/main.py` (TailingsIQ API).

Modelling conventions:
* Python floats become `ℚ`; `random.uniform(0.1, 0.9)` becomes an explicit
  parameter `u : ℚ` with `1/10 ≤ u ∧ u ≤ 9/10`.
* Instants (`datetime.utcnow()`, JWT `exp`) become `Int` seconds; `timedelta`
  becomes its length in seconds.
* A JWT is modelled as its decoded payload plus the key it was signed with;
  `jwt.decode` succeeds exactly when the presented token's key equals the
  server key (an abstract stand-in for HMAC signature validity).  PyJWT
  treats a token as expired when `exp ≤ now` (zero leeway).
* `round(x, 2)` is modelled with Mathlib's `round` on `100 * x`; Python's
  ties-to-even differs from Mathlib's ties-up only at exact half-cent ties,
  which none of the stated properties depend on.
* FastAPI dependency injection is made explicit: each protected handler takes
  the resolved `current_user : String` as an argument, and the mutable module
  globals (`facilities_db`, `risk_assessments_db`, `facility_counter`) become
  an `AppState` threaded through the handlers.
* `raise HTTPException` becomes `Except HTTPError`.
-/

namespace Backend

/-- Source: `SECRET_KEY = os.getenv("SECRET_KEY", "your-secret-key-here")`: the
server-held signing key (default value; the env override is irrelevant to the
claims, which only need that issue and verify share one key). -/
def SECRET_KEY : String := "your-secret-key-here"

/-- Source: `ACCESS_TOKEN_EXPIRE_MINUTES = 30`. -/
def ACCESS_TOKEN_EXPIRE_MINUTES : Int := 30

/-- Source: `class Facility(BaseModel)`; its id is `Optional[int] = None`. -/
structure Facility where
  id : Option Int
  name : String
  location : String
  type : String
  owner : String
  status : String
deriving Repr, DecidableEq

/-- Source: `class RiskAssessment(BaseModel)`; `timestamp : datetime` as seconds. -/
structure RiskAssessment where
  facility_id : Int
  risk_score : ℚ
  risk_level : String
  recommendations : List String
  timestamp : Int
deriving Repr, DecidableEq

/-- Source: `HTTPException(status_code, detail, headers)`. -/
structure HTTPError where
  status_code : Nat
  detail : String
  headers : List (String × String)
deriving Repr, DecidableEq

/-- Decoded JWT payload: claims `sub` (may be absent) and `exp` (seconds). -/
structure JWTPayload where
  sub : Option String
  exp : Int
deriving Repr, DecidableEq

/-- A signed token: the payload together with the key whose HMAC signature it
carries.  The signature check of `jwt.decode` is `key = SECRET_KEY`. -/
structure JWT where
  payload : JWTPayload
  key : String
deriving Repr, DecidableEq

/-- Source: `class Token(BaseModel)`: response body of `/token`. -/
structure Token where
  access_token : JWT
  token_type : String
deriving Repr, DecidableEq

/-- The module-level mutable state: `facilities_db`, `risk_assessments_db`,
`facility_counter`. -/
structure AppState where
  facilities_db : List Facility
  risk_assessments_db : List RiskAssessment
  facility_counter : Int
deriving Repr, DecidableEq

/-- Initial state: two empty lists and `facility_counter = 1`. -/
def initState : AppState :=
  { facilities_db := [], risk_assessments_db := [], facility_counter := 1 }

/-- Source: `create_access_token(data, expires_delta=None)`: the only key of `data`
ever passed is `"sub"`, modelled as `sub : Option String`; `expires_delta` in
seconds.  `exp = utcnow() + expires_delta` if given, else `utcnow() + 15 min`. -/
def create_access_token (sub : Option String) (expires_delta : Option Int)
    (now : Int) : JWT :=
  let expire : Int :=
    match expires_delta with
    | some d => now + d
    | none => now + 15 * 60
  { payload := { sub := sub, exp := expire }, key := SECRET_KEY }

/-- The 401 body raised by `verify_token`. -/
def unauthorizedError : HTTPError :=
  { status_code := 401, detail := "Could not validate credentials",
    headers := [("WWW-Authenticate", "Bearer")] }

/-- Source: `verify_token(token)`: `jwt.decode` fails (PyJWTError → 401) when the
signature does not verify or the token is expired (`exp ≤ now`); then a
missing `sub` claim is also a 401; otherwise the username is returned. -/
def verify_token (token : JWT) (now : Int) : Except HTTPError String :=
  if token.key ≠ SECRET_KEY then .error unauthorizedError
  else if token.payload.exp ≤ now then .error unauthorizedError
  else
    match token.payload.sub with
    | none => .error unauthorizedError
    | some username => .ok username

/-- Route `POST /token` (`login`): demo credentials issue a 30-minute token with
`sub = username`; anything else is a 401 with a `WWW-Authenticate` header. -/
def login (username password : String) (now : Int) : Except HTTPError Token :=
  if username = "demo" ∧ password = "demo" then
    .ok { access_token :=
            create_access_token (some username)
              (some (ACCESS_TOKEN_EXPIRE_MINUTES * 60)) now,
          token_type := "bearer" }
  else
    .error { status_code := 401, detail := "Incorrect username or password",
             headers := [("WWW-Authenticate", "Bearer")] }

/-- Route `GET /facilities` (`get_facilities`): returns `facilities_db`. -/
def get_facilities (current_user : String) (s : AppState) : List Facility :=
  s.facilities_db

/-- Route `POST /facilities` (`create_facility`): overwrites `facility.id` with the
counter, increments the counter, appends, returns the stored record. -/
def create_facility (facility : Facility) (current_user : String)
    (s : AppState) : Facility × AppState :=
  let stored := { facility with id := some s.facility_counter }
  (stored,
   { s with facilities_db := s.facilities_db ++ [stored],
            facility_counter := s.facility_counter + 1 })

/-- The 404 raised by `get_facility` and `perform_risk_assessment`
(`HTTPException(status_code=404, detail="Facility not found")`, no headers). -/
def notFoundError : HTTPError :=
  { status_code := 404, detail := "Facility not found", headers := [] }

/-- Route `GET /facilities/{facility_id}` (`get_facility`):
`next((f for f in facilities_db if f.id == facility_id), None)`, 404 on miss. -/
def get_facility (facility_id : Int) (current_user : String)
    (s : AppState) : Except HTTPError Facility :=
  match s.facilities_db.find? (fun f => f.id == some facility_id) with
  | none => .error notFoundError
  | some facility => .ok facility

/-- Python `round(x, 2)` on a rational. -/
def round2 (x : ℚ) : ℚ := (round (x * 100) : ℚ) / 100

/-- The fixed recommendation lists of the three tiers. -/
def lowRecommendations : List String :=
  ["Continue regular monitoring", "Maintain current safety protocols"]

def mediumRecommendations : List String :=
  ["Increase monitoring frequency", "Review safety procedures",
   "Consider additional safety measures"]

def highRecommendations : List String :=
  ["Immediate safety review required", "Increase monitoring to daily",
   "Consider emergency response planning", "Consult with safety experts"]

/-- Route `POST /facilities/{facility_id}/risk-assessment`
(`perform_risk_assessment`): facility lookup (404 on miss), then
`risk_score = round(random.uniform(0.1, 0.9), 2)` — the raw draw is the
parameter `u` — tier and recommendations by thresholds 0.3 / 0.7, timestamped
`utcnow()`, appended to `risk_assessments_db` and returned. -/
def perform_risk_assessment (facility_id : Int) (current_user : String)
    (u : ℚ) (now : Int) (s : AppState) :
    Except HTTPError (RiskAssessment × AppState) :=
  match s.facilities_db.find? (fun f => f.id == some facility_id) with
  | none => .error notFoundError
  | some _ =>
    let risk_score := round2 u
    let tier : String × List String :=
      if risk_score < 3/10 then ("Low", lowRecommendations)
      else if risk_score < 7/10 then ("Medium", mediumRecommendations)
      else ("High", highRecommendations)
    let assessment : RiskAssessment :=
      { facility_id := facility_id, risk_score := risk_score,
        risk_level := tier.1, recommendations := tier.2, timestamp := now }
    .ok (assessment,
         { s with risk_assessments_db := s.risk_assessments_db ++ [assessment] })

/-- A sequence of `POST /facilities` calls by one user: returns the created
records in order and the final state. -/
def runCreates (current_user : String) :
    List Facility → AppState → List Facility × AppState
  | [], s => ([], s)
  | f :: fs, s =>
    let r := create_facility f current_user s
    let rest := runCreates current_user fs r.2
    (r.1 :: rest.1, rest.2)


/-! ## Helper lemmas -/

/-- Verifying a token freshly created with subject `sub` and lifetime `d`:
accepted (yielding `sub`) strictly before `now + d`, rejected from `now + d`
on. -/
lemma verify_create_access_token (sub : String) (d now t : Int) :
    (t < now + d →
      verify_token (create_access_token (some sub) (some d) now) t = .ok sub) ∧
    (now + d ≤ t →
      verify_token (create_access_token (some sub) (some d) now) t
        = .error unauthorizedError) := by
  constructor
  · intro h
    unfold verify_token create_access_token
    rw [if_neg (by simp), if_neg (by simp; omega)]
  · intro h
    unfold verify_token create_access_token
    rw [if_neg (by simp), if_pos (by simp; omega)]

/-- Rounding to two decimals keeps a draw inside `[0.1, 0.9]`. -/
lemma round2_bounds (u : ℚ) (h1 : 1/10 ≤ u) (h2 : u ≤ 9/10) :
    1/10 ≤ round2 u ∧ round2 u ≤ 9/10 := by
  have hl : (10 : ℤ) ≤ round (u * 100) := by
    rw [round_eq, Int.le_floor]
    push_cast
    linarith
  have hr : round (u * 100) ≤ 90 := by
    have h91 : round (u * 100) < 91 := by
      rw [round_eq, Int.floor_lt]
      push_cast
      linarith
    omega
  unfold round2
  constructor
  · have h10 : (10 : ℚ) ≤ ((round (u * 100) : ℤ) : ℚ) := by exact_mod_cast hl
    linarith
  · have h90 : ((round (u * 100) : ℤ) : ℚ) ≤ 90 := by exact_mod_cast hr
    linarith

/-! ## Claims about the token service -/

/-- Claim C1: when username and password are both `"demo"`, `login` returns a
token that `verify_token` (at the issuance instant) accepts, yielding the
username `"demo"`; for every other pair `login` fails with a 401 carrying a
`WWW-Authenticate` challenge header. -/
theorem login_demo_roundtrip (username password : String) (now : Int) :
    (username = "demo" ∧ password = "demo" →
      ∃ tok : Token, login username password now = .ok tok ∧
        verify_token tok.access_token now = .ok "demo") ∧
    (¬(username = "demo" ∧ password = "demo") →
      login username password now =
        .error { status_code := 401,
                 detail := "Incorrect username or password",
                 headers := [("WWW-Authenticate", "Bearer")] }) := by
  constructor
  · rintro ⟨hu, hp⟩
    subst hu
    subst hp
    refine ⟨{ access_token := create_access_token (some "demo")
                (some (ACCESS_TOKEN_EXPIRE_MINUTES * 60)) now,
              token_type := "bearer" }, rfl, ?_⟩
    exact (verify_create_access_token "demo"
      (ACCESS_TOKEN_EXPIRE_MINUTES * 60) now now).1
      (by simp only [ACCESS_TOKEN_EXPIRE_MINUTES]; omega)
  · intro hne
    unfold login
    rw [if_neg hne]

/-- Witness for C1 at concrete inputs: `("demo", "demo")` round-trips and
`("alice", "pw")` is rejected with the challenge header. -/
theorem login_demo_roundtrip_witness :
    (∃ tok : Token, login "demo" "demo" 0 = .ok tok ∧
        verify_token tok.access_token 0 = .ok "demo") ∧
    login "alice" "pw" 0 =
      .error { status_code := 401, detail := "Incorrect username or password",
               headers := [("WWW-Authenticate", "Bearer")] } :=
  ⟨(login_demo_roundtrip "demo" "demo" 0).1 ⟨rfl, rfl⟩,
   (login_demo_roundtrip "alice" "pw" 0).2 (by decide)⟩

/-- Claim C5: every token issued by `login` expires exactly 30 minutes after
issuance, and `create_access_token` without an `expires_delta` sets the expiry
15 minutes after the current instant. -/
theorem token_expiry_durations :
    (∀ (username password : String) (now : Int) (tok : Token),
        login username password now = .ok tok →
        tok.access_token.payload.exp = now + 30 * 60) ∧
    (∀ (sub : Option String) (now : Int),
        (create_access_token sub none now).payload.exp = now + 15 * 60) := by
  constructor
  · intro username password now tok h
    unfold login at h
    by_cases hc : username = "demo" ∧ password = "demo"
    · rw [if_pos hc] at h
      injection h with h'
      subst h'
      simp [create_access_token, ACCESS_TOKEN_EXPIRE_MINUTES]
    · rw [if_neg hc] at h
      exact absurd h (by simp)
  · intro sub now
    rfl

/-- Witness for C5: a token issued at instant 0 carries expiry `0 + 30 * 60`. -/
theorem token_expiry_durations_witness :
    ({ access_token := create_access_token (some "demo")
         (some (ACCESS_TOKEN_EXPIRE_MINUTES * 60)) 0,
       token_type := "bearer" } : Token).access_token.payload.exp = 0 + 30 * 60 :=
  token_expiry_durations.1 "demo" "demo" 0 _ rfl

/-- Claim C6: `verify_token` fails (with the 401 Unauthorized error) exactly
when the signature is invalid, the token is expired, or the `sub` claim is
absent; in every other case it returns the `sub` claim as the username. -/
theorem verify_token_unauthorized_iff (token : JWT) (now : Int) :
    (verify_token token now = .error unauthorizedError ↔
      token.key ≠ SECRET_KEY ∨ token.payload.exp ≤ now ∨
        token.payload.sub = none) ∧
    (∀ u : String, token.key = SECRET_KEY → now < token.payload.exp →
      token.payload.sub = some u → verify_token token now = .ok u) := by
  constructor
  · unfold verify_token
    by_cases h1 : token.key ≠ SECRET_KEY
    · rw [if_pos h1]
      simp [h1]
    · rw [if_neg h1]
      by_cases h2 : token.payload.exp ≤ now
      · rw [if_pos h2]
        simp [h2]
      · rw [if_neg h2]
        cases hsub : token.payload.sub with
        | none => simp [h1, h2, hsub]
        | some u => simp [h1, h2, hsub]
  · intro u hk hexp hsub
    unfold verify_token
    rw [if_neg (by simp [hk]), if_neg (by omega), hsub]

/-- Witness for C6: a well-signed, unexpired token with subject `"demo"`
verifies to `"demo"`. -/
theorem verify_token_unauthorized_iff_witness :
    verify_token { payload := { sub := some "demo", exp := 10 },
                   key := SECRET_KEY } 0 = .ok "demo" :=
  (verify_token_unauthorized_iff
    { payload := { sub := some "demo", exp := 10 }, key := SECRET_KEY } 0).2
    "demo" rfl (by decide) rfl

/-- Claim C7: a token issued by `login` is rejected by `verify_token` at every
instant strictly after its expiry instant and accepted (yielding its subject)
at every instant strictly before it. -/
theorem issued_token_validity_window (username password : String) (now : Int)
    (tok : Token) (h : login username password now = .ok tok) :
    (∀ t : Int, tok.access_token.payload.exp < t →
      verify_token tok.access_token t = .error unauthorizedError) ∧
    (∀ t : Int, t < tok.access_token.payload.exp →
      verify_token tok.access_token t = .ok "demo") := by
  unfold login at h
  by_cases hc : username = "demo" ∧ password = "demo"
  · rw [if_pos hc] at h
    obtain ⟨hu, hp⟩ := hc
    subst hu
    injection h with h'
    subst h'
    constructor
    · intro t ht
      refine (verify_create_access_token "demo"
        (ACCESS_TOKEN_EXPIRE_MINUTES * 60) now t).2 ?_
      exact le_of_lt ht
    · intro t ht
      exact (verify_create_access_token "demo"
        (ACCESS_TOKEN_EXPIRE_MINUTES * 60) now t).1 ht
  · rw [if_neg hc] at h
    exact absurd h (by simp)

/-- Witness for C7: the token issued at instant 0 (expiry 1800) is rejected at
instant 3000 and accepted at instant 100. -/
theorem issued_token_validity_window_witness :
    verify_token ({ access_token := create_access_token (some "demo")
                      (some (ACCESS_TOKEN_EXPIRE_MINUTES * 60)) 0,
                    token_type := "bearer" } : Token).access_token 3000
        = .error unauthorizedError ∧
    verify_token ({ access_token := create_access_token (some "demo")
                      (some (ACCESS_TOKEN_EXPIRE_MINUTES * 60)) 0,
                    token_type := "bearer" } : Token).access_token 100
        = .ok "demo" :=
  ⟨(issued_token_validity_window "demo" "demo" 0 _ rfl).1 3000 (by decide),
   (issued_token_validity_window "demo" "demo" 0 _ rfl).2 100 (by decide)⟩

/-! ## Claims about the risk assessment generator -/

/-- Claim C2: every assessment returned by `perform_risk_assessment` (for a
draw in `[0.1, 0.9]`, as `random.uniform(0.1, 0.9)` yields) has a risk score
in `[0.1, 0.9]`, and its risk level and recommendations are the step function
of that score: below 0.3 Low, in `[0.3, 0.7)` Medium, at or above 0.7 High. -/
theorem risk_assessment_score_and_tier (facility_id : Int)
    (current_user : String) (u : ℚ) (now : Int) (s : AppState)
    (a : RiskAssessment) (s' : AppState)
    (hu1 : 1/10 ≤ u) (hu2 : u ≤ 9/10)
    (h : perform_risk_assessment facility_id current_user u now s
          = .ok (a, s')) :
    1/10 ≤ a.risk_score ∧ a.risk_score ≤ 9/10 ∧
    (a.risk_score < 3/10 →
      a.risk_level = "Low" ∧ a.recommendations = lowRecommendations) ∧
    (3/10 ≤ a.risk_score → a.risk_score < 7/10 →
      a.risk_level = "Medium" ∧ a.recommendations = mediumRecommendations) ∧
    (7/10 ≤ a.risk_score →
      a.risk_level = "High" ∧ a.recommendations = highRecommendations) := by
  simp only [perform_risk_assessment] at h
  cases hf : s.facilities_db.find? (fun f => f.id == some facility_id) with
  | none =>
    rw [hf] at h
    exact absurd h (by simp)
  | some fac =>
    rw [hf] at h
    injection h with h'
    injection h' with ha hs
    subst ha
    obtain ⟨hb1, hb2⟩ := round2_bounds u hu1 hu2
    by_cases h3 : round2 u < 3/10
    · refine ⟨by simpa using hb1, by simpa using hb2, fun _ => ?_,
        fun h30 _ => absurd h3 (by simp at h30 ⊢; linarith),
        fun h70 => absurd h3 (by simp at h70 ⊢; linarith)⟩
      simp [h3]
    · by_cases h7 : round2 u < 7/10
      · refine ⟨by simpa using hb1, by simpa using hb2,
          fun hlt => absurd h3 (by simp at hlt; simp [hlt]),
          fun _ _ => ?_,
          fun h70 => absurd h7 (by simp at h70 ⊢; linarith)⟩
        simp [h3, h7]
      · refine ⟨by simpa using hb1, by simpa using hb2,
          fun hlt => absurd h3 (by simp at hlt; simp [hlt]),
          fun _ hlt7 => absurd h7 (by simp at hlt7; simp [hlt7]),
          fun _ => ?_⟩
        simp [h3, h7]

/-- Claim C8: a successful `perform_risk_assessment` appends exactly the
returned record — stamped with the current instant and the requested facility
id — to the end of the assessment log, leaving the facility store, the
counter, and all previously logged assessments unchanged. -/
theorem risk_assessment_frame (facility_id : Int) (current_user : String)
    (u : ℚ) (now : Int) (s : AppState) (a : RiskAssessment) (s' : AppState)
    (h : perform_risk_assessment facility_id current_user u now s
          = .ok (a, s')) :
    s'.risk_assessments_db = s.risk_assessments_db ++ [a] ∧
    a.timestamp = now ∧
    a.facility_id = facility_id ∧
    s'.facilities_db = s.facilities_db ∧
    s'.facility_counter = s.facility_counter := by
  simp only [perform_risk_assessment] at h
  cases hf : s.facilities_db.find? (fun f => f.id == some facility_id) with
  | none =>
    rw [hf] at h
    exact absurd h (by simp)
  | some fac =>
    rw [hf] at h
    injection h with h'
    injection h' with ha hs
    subst ha
    subst hs
    exact ⟨rfl, rfl, rfl, rfl, rfl⟩

/-- A sample facility with id 1 for concrete runs. -/
def sampleFacility : Facility :=
  { id := some 1, name := "Dam A", location := "Site", type := "tailings",
    owner := "Acme", status := "active" }

/-- A sample store holding `sampleFacility`, counter already at 2. -/
def sampleState : AppState :=
  { facilities_db := [sampleFacility], risk_assessments_db := [],
    facility_counter := 2 }

/-- The record produced by assessing facility 1 with draw `1/2` at instant 0. -/
def sampleAssessment : RiskAssessment :=
  { facility_id := 1, risk_score := 1/2, risk_level := "Medium",
    recommendations := mediumRecommendations, timestamp := 0 }

/-- Concrete run: assessing facility 1 of `sampleState` with draw `1/2` at
instant 0 returns `sampleAssessment` and appends it to the log. -/
lemma sample_assessment_run :
    perform_risk_assessment 1 "demo" (1/2) 0 sampleState =
      .ok (sampleAssessment,
           { facilities_db := [sampleFacility],
             risk_assessments_db := [sampleAssessment],
             facility_counter := 2 }) := by
  have hround : round2 (1/2) = 1/2 := by unfold round2; norm_num
  simp only [perform_risk_assessment, sampleState, sampleFacility,
    sampleAssessment, List.find?]
  norm_num [hround]

/-- Witness for C2: the sample run's score `1/2` lies in range and lands in
the Medium tier. -/
theorem risk_assessment_score_and_tier_witness :
    1/10 ≤ sampleAssessment.risk_score ∧ sampleAssessment.risk_score ≤ 9/10 ∧
    (sampleAssessment.risk_score < 3/10 →
      sampleAssessment.risk_level = "Low" ∧
      sampleAssessment.recommendations = lowRecommendations) ∧
    (3/10 ≤ sampleAssessment.risk_score →
      sampleAssessment.risk_score < 7/10 →
      sampleAssessment.risk_level = "Medium" ∧
      sampleAssessment.recommendations = mediumRecommendations) ∧
    (7/10 ≤ sampleAssessment.risk_score →
      sampleAssessment.risk_level = "High" ∧
      sampleAssessment.recommendations = highRecommendations) :=
  risk_assessment_score_and_tier 1 "demo" (1/2) 0 sampleState sampleAssessment
    _ (by norm_num) (by norm_num) sample_assessment_run

/-- Witness for C8: the sample run appends exactly `sampleAssessment` and
leaves the facility store and counter unchanged. -/
theorem risk_assessment_frame_witness :
    ({ facilities_db := [sampleFacility],
       risk_assessments_db := [sampleAssessment],
       facility_counter := 2 } : AppState).risk_assessments_db
        = sampleState.risk_assessments_db ++ [sampleAssessment] ∧
    sampleAssessment.timestamp = 0 ∧
    sampleAssessment.facility_id = 1 ∧
    ({ facilities_db := [sampleFacility],
       risk_assessments_db := [sampleAssessment],
       facility_counter := 2 } : AppState).facilities_db
        = sampleState.facilities_db ∧
    ({ facilities_db := [sampleFacility],
       risk_assessments_db := [sampleAssessment],
       facility_counter := 2 } : AppState).facility_counter
        = sampleState.facility_counter :=
  risk_assessment_frame 1 "demo" (1/2) 0 sampleState sampleAssessment _
    sample_assessment_run

/-! ## Claims about the facility store -/

/-- Structure of a run of `runCreates`: the store gains exactly the returned
records in order, their ids count up from the starting counter, and the
counter advances by the number of creations. -/
lemma runCreates_spec (current_user : String) (inputs : List Facility)
    (s : AppState) :
    (runCreates current_user inputs s).2.facilities_db
        = s.facilities_db ++ (runCreates current_user inputs s).1 ∧
    List.map (fun f => f.id) (runCreates current_user inputs s).1
        = List.map (fun i : ℕ => some (s.facility_counter + (i : Int)))
            (List.range inputs.length) ∧
    (runCreates current_user inputs s).2.facility_counter
        = s.facility_counter + inputs.length := by
  induction inputs generalizing s with
  | nil => simp [runCreates]
  | cons f fs ih =>
    obtain ⟨ih1, ih2, ih3⟩ := ih (create_facility f current_user s).2
    refine ⟨?_, ?_, ?_⟩
    · simp only [runCreates]
      rw [ih1]
      simp [create_facility]
    · simp only [runCreates, List.map_cons]
      rw [ih2]
      simp only [create_facility, List.length_cons]
      rw [List.range_succ_eq_map, List.map_cons, List.map_map]
      refine congrArg₂ List.cons (by simp) ?_
      refine List.map_congr_left fun i hi => ?_
      simp only [Function.comp]
      congr 1
      push_cast
      ring
    · simp only [runCreates]
      rw [ih3]
      simp only [create_facility, List.length_cons]
      push_cast
      ring

/-- Claim C3: starting from the empty store, a sequence of N creations assigns
exactly the identifiers 1, 2, ..., N in creation order — unique and strictly
increasing — and a subsequent list call returns the N created records in
creation order. -/
theorem create_sequence_ids (inputs : List Facility) (current_user : String) :
    List.map (fun f => f.id) (runCreates current_user inputs initState).1
        = List.map (fun i : ℕ => some ((i : Int) + 1))
            (List.range inputs.length) ∧
    (List.map (fun f => f.id) (runCreates current_user inputs initState).1).Nodup ∧
    List.Pairwise (fun a b : Option Int => ∃ x y, a = some x ∧ b = some y ∧ x < y)
      (List.map (fun f => f.id) (runCreates current_user inputs initState).1) ∧
    get_facilities current_user (runCreates current_user inputs initState).2
        = (runCreates current_user inputs initState).1 := by
  obtain ⟨h1, h2, h3⟩ := runCreates_spec current_user inputs initState
  have hids : List.map (fun f => f.id) (runCreates current_user inputs initState).1
      = List.map (fun i : ℕ => some ((i : Int) + 1)) (List.range inputs.length) := by
    rw [h2]
    refine List.map_congr_left fun i hi => ?_
    simp only [initState]
    congr 1
    ring
  refine ⟨hids, ?_, ?_, ?_⟩
  · rw [hids]
    refine List.Nodup.map ?_ (List.nodup_range _)
    intro a b hab
    have h : (a : Int) = (b : Int) := by simpa using hab
    exact_mod_cast h
  · rw [hids]
    refine List.Pairwise.map _ ?_ (List.pairwise_lt_range _)
    intro a b hab
    exact ⟨(a : Int) + 1, (b : Int) + 1, rfl, rfl, by omega⟩
  · simp only [get_facilities]
    rw [h1]
    simp [initState]

/-- Claim C4: `get_facility` and `perform_risk_assessment` fail with the 404
NotFound error exactly when no stored facility carries the requested id; when
one does, both succeed. -/
theorem facility_lookup_not_found (facility_id : Int) (current_user : String)
    (u : ℚ) (now : Int) (s : AppState) :
    ((∀ f ∈ s.facilities_db, f.id ≠ some facility_id) →
      get_facility facility_id current_user s = .error notFoundError ∧
      perform_risk_assessment facility_id current_user u now s
          = .error notFoundError) ∧
    ((∃ f ∈ s.facilities_db, f.id = some facility_id) →
      (∃ fac, get_facility facility_id current_user s = .ok fac) ∧
      (∃ r, perform_risk_assessment facility_id current_user u now s
          = .ok r)) := by
  constructor
  · intro hnone
    have hf : s.facilities_db.find? (fun f => f.id == some facility_id)
        = none := by
      rw [List.find?_eq_none]
      intro f hmem
      simpa using hnone f hmem
    constructor
    · simp only [get_facility, hf]
    · simp only [perform_risk_assessment, hf]
  · intro hex
    have hf : (s.facilities_db.find? (fun f => f.id == some facility_id)).isSome := by
      rw [List.find?_isSome]
      obtain ⟨f, hmem, hid⟩ := hex
      exact ⟨f, hmem, by simpa using hid⟩
    obtain ⟨fac, hfac⟩ := Option.isSome_iff_exists.mp hf
    constructor
    · exact ⟨fac, by simp only [get_facility, hfac]⟩
    · cases hres : perform_risk_assessment facility_id current_user u now s with
      | error e =>
        simp only [perform_risk_assessment, hfac] at hres
        exact absurd hres (by simp)
      | ok r => exact ⟨r, rfl⟩

/-- Witness for C4: the empty initial store yields 404 for facility 1 from
both endpoints; the sample store (which holds facility 1) yields success from
both. -/
theorem facility_lookup_not_found_witness :
    (get_facility 1 "demo" initState = .error notFoundError ∧
     perform_risk_assessment 1 "demo" (1/2) 0 initState
        = .error notFoundError) ∧
    ((∃ fac, get_facility 1 "demo" sampleState = .ok fac) ∧
     (∃ r, perform_risk_assessment 1 "demo" (1/2) 0 sampleState = .ok r)) :=
  ⟨(facility_lookup_not_found 1 "demo" (1/2) 0 initState).1
      (by intro f hmem; simp [initState] at hmem),
   (facility_lookup_not_found 1 "demo" (1/2) 0 sampleState).2
      ⟨sampleFacility, by simp [sampleState], rfl⟩⟩

/-- Claim C9: `create_facility` ignores any client-supplied id: the stored and
returned record always carries the current counter value, whatever id the
request body held, and it is appended to the store. -/
theorem create_facility_ignores_client_id (facility : Facility)
    (id1 id2 : Option Int) (current_user : String) (s : AppState) :
    create_facility { facility with id := id1 } current_user s
        = create_facility { facility with id := id2 } current_user s ∧
    (create_facility facility current_user s).1.id = some s.facility_counter ∧
    (create_facility facility current_user s).2.facilities_db
        = s.facilities_db ++ [(create_facility facility current_user s).1] :=
  ⟨rfl, rfl, rfl⟩

/-- Claim C10: no facility handler's result depends on which authenticated
username invoked it — each is identical under any two usernames, given the
same state and parameters. -/
theorem handlers_ignore_current_user (user1 user2 : String) (s : AppState)
    (facility : Facility) (facility_id : Int) (u : ℚ) (now : Int) :
    get_facilities user1 s = get_facilities user2 s ∧
    create_facility facility user1 s = create_facility facility user2 s ∧
    get_facility facility_id user1 s = get_facility facility_id user2 s ∧
    perform_risk_assessment facility_id user1 u now s
        = perform_risk_assessment facility_id user2 u now s :=
  ⟨rfl, rfl, rfl, rfl⟩

end Backend
